import Mathlib

/-!
Shallow embedding of the EDID-Calculator backend (src/backend/app/main.py),
a FastAPI service that proxies Gemini AI requests.  Python dictionaries and
JSON values are modelled by an inductive `Json` type, Python `None` by
`Option`, and Python truthiness of strings / lists / dicts is made explicit
at each use site.  The process-wide startup state (the `GEMINI_API_KEY`
environment variable and the outcome of constructing the Gemini client) is a
record `ProcessEnv`; the external `client.models.generate_content` call is a
function parameter returning `Except String _` (an exception carries its
stringified message).  The analyze handler additionally returns the list of
outbound calls it issued, so that claims about the number and content of
outbound calls can be stated.
-/

namespace EDIDBackend

/-- A JSON value, as carried by Python dict literals and by Gemini
function-call arguments (`Dict[str, Any]`). -/
inductive Json where
  | null : Json
  | bool : Bool → Json
  | num : Int → Json
  | str : String → Json
  | arr : List Json → Json
  | obj : List (String × Json) → Json

/-- Python truthiness of an optional string: `None` and `""` are falsy. -/
def pyStrTruthy : Option String → Bool
  | none => false
  | some s => !(s == "")

/-- Process-wide startup state: the result of `os.getenv("GEMINI_API_KEY")`
(`none` when the variable is absent from the environment) and whether the
`genai.Client(api_key=...)` constructor succeeded (it is only attempted when
the key is truthy). -/
structure ProcessEnv where
  GEMINI_API_KEY : Option String
  client_init_ok : Bool

/-- The module-level `client` global: constructed only when the key is
truthy; set to `None` when construction raised.  (When the key is falsy the
Python name is never bound, but the handler's short-circuit check never
reads it in that case; we model it as `none`.) -/
def client (env : ProcessEnv) : Option Unit :=
  if pyStrTruthy env.GEMINI_API_KEY then
    (if env.client_init_ok then some () else none)
  else none

/-- The handler's guard `if not GEMINI_API_KEY or not client:`. -/
def gemini_unconfigured (env : ProcessEnv) : Bool :=
  !pyStrTruthy env.GEMINI_API_KEY || (client env).isNone

/-- `ChatMessage` pydantic model: one turn of prior conversation. -/
structure ChatMessage where
  role : String
  text : String

/-- `GeminiRequest` pydantic model: the body of POST /api/gemini/analyze. -/
structure GeminiRequest where
  history : List ChatMessage
  message : String

/-- `FunctionCall` pydantic model: the function call surfaced in the
response; `args` is a string-keyed mapping of JSON values. -/
structure FunctionCall where
  name : String
  args : List (String × Json)

/-- `GeminiResponse` pydantic model: the body returned on success. -/
structure GeminiResponse where
  text : String
  functionCall : Option FunctionCall

/-- A function call inside a Gemini SDK reply part (`part.function_call`):
`args` is `None` when the model supplied no arguments. -/
structure SdkFunctionCall where
  name : String
  args : Option (List (String × Json))

/-- One part of a Gemini SDK candidate content; `function_call` is `None`
on plain text parts. -/
structure Part where
  function_call : Option SdkFunctionCall

/-- A candidate's `content`; `parts` may be `None`. -/
structure Content where
  parts : Option (List Part)

/-- One candidate of a Gemini SDK reply; `content` may be `None`. -/
structure Candidate where
  content : Option Content

/-- The Gemini SDK reply (`generate_content` result): aggregated `text`
(may be `None`) and the candidate list (may be `None`). -/
structure GenerateContentResponse where
  text : Option String
  candidates : Option (List Candidate)

/-- A tool/function declaration sent to Gemini. -/
structure FunctionDeclaration where
  name : String
  description : String
  parameters : Json

/-- A tool wrapper (`types.Tool`). -/
structure Tool where
  function_declarations : List FunctionDeclaration

/-- The `types.GenerateContentConfig` passed on the outbound call. -/
structure GenerateContentConfig where
  system_instruction : String
  tools : List Tool
  temperature : Rat

/-- Everything the handler passes to `client.models.generate_content`. -/
structure OutboundCall where
  model : String
  contents : String
  config : GenerateContentConfig

/-- A property schema entry of the form
`{'type': 'number', 'description': d}`. -/
def numField (d : String) : Json :=
  Json.obj [("type", Json.str "number"), ("description", Json.str d)]

/-- The fixed `updateEdidForm` function declaration, transcribed from the
handler. -/
def update_edid_form : FunctionDeclaration :=
  { name := "updateEdidForm"
    description := "Updates the EDID parameter form with the provided values. Use this when the user provides specific timing or color information to populate the form."
    parameters := Json.obj
      [ ("type", Json.str "object")
      , ("properties", Json.obj
          [ ("displayName", Json.obj [("type", Json.str "string"), ("description", Json.str "The name of the display monitor.")])
          , ("pixelClock", numField "Pixel clock in kHz.")
          , ("hAddressable", numField "Horizontal addressable pixels.")
          , ("hBlanking", numField "Horizontal blanking pixels.")
          , ("vAddressable", numField "Vertical addressable lines.")
          , ("vBlanking", numField "Vertical blanking lines.")
          , ("refreshRate", numField "The vertical refresh rate in Hz.")
          , ("hFrontPorch", numField "Horizontal front porch pixels.")
          , ("hSyncWidth", numField "Horizontal sync width pixels.")
          , ("vFrontPorch", numField "Vertical front porch lines.")
          , ("vSyncWidth", numField "Vertical sync width lines.")
          , ("hImageSize", numField "Horizontal image size in mm.")
          , ("vImageSize", numField "Vertical image size in mm.")
          , ("hBorder", numField "Horizontal border pixels.")
          , ("vBorder", numField "Vertical border lines.")
          , ("colorimetry", Json.obj
              [ ("type", Json.str "object")
              , ("description", Json.str "CIE 1931 color characteristics.")
              , ("properties", Json.obj
                  [ ("redX", numField "CIE 1931 \x27x\x27 coordinate for the red primary color.")
                  , ("redY", numField "CIE 1931 \x27y\x27 coordinate for the red primary color.")
                  , ("greenX", numField "CIE 1931 \x27x\x27 coordinate for the green primary color.")
                  , ("greenY", numField "CIE 1931 \x27y\x27 coordinate for the green primary color.")
                  , ("blueX", numField "CIE 1931 \x27x\x27 coordinate for the blue primary color.")
                  , ("blueY", numField "CIE 1931 \x27y\x27 coordinate for the blue primary color.")
                  , ("whiteX", numField "CIE 1931 \x27x\x27 coordinate for the display\x27s white point.")
                  , ("whiteY", numField "CIE 1931 \x27y\x27 coordinate for the display\x27s white point.")
                  ])
              ])
          ])
      ] }

/-- The fixed system instruction string of the outbound call. -/
def system_instruction_text : String :=
  "You are an expert assistant for embedded systems engineers, specializing in display timings and the EDID specification. Your name is \x27Eddy\x27. Answer questions clearly, concisely, and accurately to help users understand the complexities of display standards. When a user provides EDID, timing, or colorimetry information, use the `updateEdidForm` tool to populate the form fields. Inform the user that you have updated the form."

/-- The outbound `generate_content` call built by the handler: note that
`contents` is `request.message` alone — `request.history` is not read. -/
def buildOutboundCall (request : GeminiRequest) : OutboundCall :=
  { model := "gemini-2.0-flash-exp"
    contents := request.message
    config :=
      { system_instruction := system_instruction_text
        tools := [{ function_declarations := [update_edid_form] }]
        temperature := (7 : Rat) / 10 } }

/-- The loop `for part in candidate.content.parts: if ... part.function_call:
... break`: the first part whose `function_call` is set. -/
def firstFunctionCallPart : List Part → Option SdkFunctionCall
  | [] => none
  | p :: ps =>
    match p.function_call with
    | some fc => some fc
    | none => firstFunctionCallPart ps

/-- `FunctionCall(name=fc.name, args=dict(fc.args) if fc.args else {})` —
a `None` or empty args dict becomes the empty mapping. -/
def mkFunctionCall (fc : SdkFunctionCall) : FunctionCall :=
  { name := fc.name
    args :=
      match fc.args with
      | none => []
      | some [] => []
      | some l => l }

/-- The function-call extraction of the handler: only the first candidate is
inspected, guarded by the truthiness of `response.candidates`,
`candidate.content` and `candidate.content.parts`. -/
def extractFunctionCall (response : GenerateContentResponse) : Option FunctionCall :=
  match response.candidates with
  | none => none
  | some [] => none
  | some (candidate :: _) =>
    match candidate.content with
    | none => none
    | some content =>
      match content.parts with
      | none => none
      | some [] => none
      | some parts => (firstFunctionCallPart parts).map mkFunctionCall

/-- `response.text if response.text else ""`: `None` and the empty string
both yield `""`. -/
def responseTextDefault : Option String → String
  | none => ""
  | some s => if s == "" then "" else s

/-- Outcome of one HTTP request: a 200 with a `GeminiResponse` body, or an
`HTTPException` with a status code and a `detail` string. -/
inductive AnalyzeResult where
  | ok : GeminiResponse → AnalyzeResult
  | httpError : Nat → String → AnalyzeResult

/-- The detail string of the misconfiguration error. -/
def notConfiguredDetail : String :=
  "Gemini API not configured. Please set GEMINI_API_KEY environment variable."

/-- The POST /api/gemini/analyze handler.  `generate_content` stands for the
external Gemini call; `Except.error e` models an exception whose
stringification is `e`.  The second component of the result is the list of
outbound calls issued while handling the request. -/
def analyze_with_gemini (env : ProcessEnv)
    (generate_content : OutboundCall → Except String GenerateContentResponse)
    (request : GeminiRequest) : AnalyzeResult × List OutboundCall :=
  if gemini_unconfigured env then
    (.httpError 500 notConfiguredDetail, [])
  else
    let call := buildOutboundCall request
    match generate_content call with
    | .error e =>
      (.httpError 500 ("Failed to process request with Gemini AI: " ++ e), [call])
    | .ok response =>
      let response_text := responseTextDefault response.text
      let function_call := extractFunctionCall response
      (.ok { text := response_text, functionCall := function_call }, [call])

/-- Body of the GET /health response. -/
structure HealthBody where
  status : String
  service : String
  gemini_configured : Bool

/-- The GET /health handler: FastAPI returns the dict with status 200;
`gemini_configured` is `GEMINI_API_KEY is not None`. -/
def health_check (env : ProcessEnv) : Nat × HealthBody :=
  (200,
    { status := "healthy"
      service := "edid-calculator-backend"
      gemini_configured := env.GEMINI_API_KEY.isSome })

/-- All parts of a candidate, empty when `content` or `parts` is `None`. -/
def candidateParts (c : Candidate) : List Part :=
  match c.content with
  | none => []
  | some content => content.parts.getD []

/-- All parts across all candidates of a reply. -/
def responseParts (response : GenerateContentResponse) : List Part :=
  ((response.candidates.getD []).map candidateParts).flatten

/-! ## Helper lemmas -/

theorem analyze_of_unconfigured (env : ProcessEnv)
    (generate_content : OutboundCall → Except String GenerateContentResponse)
    (request : GeminiRequest) (h : gemini_unconfigured env = true) :
    analyze_with_gemini env generate_content request
      = (.httpError 500 notConfiguredDetail, []) := by
  unfold analyze_with_gemini
  rw [h]
  simp

theorem analyze_of_error (env : ProcessEnv)
    (generate_content : OutboundCall → Except String GenerateContentResponse)
    (request : GeminiRequest) (e : String)
    (hc : gemini_unconfigured env = false)
    (he : generate_content (buildOutboundCall request) = .error e) :
    analyze_with_gemini env generate_content request
      = (.httpError 500 ("Failed to process request with Gemini AI: " ++ e),
         [buildOutboundCall request]) := by
  unfold analyze_with_gemini
  rw [hc]
  simp [he]

theorem analyze_of_ok (env : ProcessEnv)
    (generate_content : OutboundCall → Except String GenerateContentResponse)
    (request : GeminiRequest) (response : GenerateContentResponse)
    (hc : gemini_unconfigured env = false)
    (hr : generate_content (buildOutboundCall request) = .ok response) :
    analyze_with_gemini env generate_content request
      = (.ok { text := responseTextDefault response.text
               functionCall := extractFunctionCall response },
         [buildOutboundCall request]) := by
  unfold analyze_with_gemini
  rw [hc]
  simp [hr]

theorem analyze_calls_of_configured (env : ProcessEnv)
    (generate_content : OutboundCall → Except String GenerateContentResponse)
    (request : GeminiRequest) (hc : gemini_unconfigured env = false) :
    (analyze_with_gemini env generate_content request).2 = [buildOutboundCall request] := by
  cases hr : generate_content (buildOutboundCall request) with
  | error e => rw [analyze_of_error env generate_content request e hc hr]
  | ok response => rw [analyze_of_ok env generate_content request response hc hr]

theorem buildOutboundCall_congr (r1 r2 : GeminiRequest) (h : r1.message = r2.message) :
    buildOutboundCall r1 = buildOutboundCall r2 := by
  unfold buildOutboundCall
  rw [h]

theorem responseTextDefault_eq_getD (t : Option String) :
    responseTextDefault t = t.getD "" := by
  cases t with
  | none => rfl
  | some s =>
    by_cases h : s = "" <;> simp [responseTextDefault, h]

theorem firstFunctionCallPart_of_prefix_none (pre post : List Part) (p : Part)
    (fc : SdkFunctionCall)
    (hpre : ∀ q ∈ pre, q.function_call = none) (hp : p.function_call = some fc) :
    firstFunctionCallPart (pre ++ p :: post) = some fc := by
  induction pre with
  | nil => simp [firstFunctionCallPart, hp]
  | cons q qs ih =>
    have hq : q.function_call = none := hpre q (List.mem_cons_self q qs)
    simp only [List.cons_append, firstFunctionCallPart, hq]
    exact ih fun x hx => hpre x (List.mem_cons_of_mem q hx)

theorem firstFunctionCallPart_of_all_none (ps : List Part)
    (h : ∀ p ∈ ps, p.function_call = none) :
    firstFunctionCallPart ps = none := by
  induction ps with
  | nil => rfl
  | cons p tail ih =>
    have hp : p.function_call = none := h p (List.mem_cons_self p tail)
    simp only [firstFunctionCallPart, hp]
    exact ih fun q hq => h q (List.mem_cons_of_mem p hq)

theorem extractFunctionCall_of_first (response : GenerateContentResponse)
    (cand : Candidate) (rest : List Candidate) (ct : Content) (ps : List Part)
    (fc : SdkFunctionCall)
    (hcand : response.candidates = some (cand :: rest))
    (hcont : cand.content = some ct)
    (hparts : ct.parts = some ps)
    (hfirst : firstFunctionCallPart ps = some fc) :
    extractFunctionCall response = some (mkFunctionCall fc) := by
  cases ps with
  | nil => simp [firstFunctionCallPart] at hfirst
  | cons a as => simp [extractFunctionCall, hcand, hcont, hparts, hfirst]

theorem extractFunctionCall_first_candidate_none (t : Option String)
    (c0 : Candidate) (rest : List Candidate)
    (h : ∀ p ∈ candidateParts c0, p.function_call = none) :
    extractFunctionCall { text := t, candidates := some (c0 :: rest) } = none := by
  cases hcont : c0.content with
  | none => simp [extractFunctionCall, hcont]
  | some ct =>
    cases hparts : ct.parts with
    | none => simp [extractFunctionCall, hcont, hparts]
    | some ps =>
      cases ps with
      | nil => simp [extractFunctionCall, hcont, hparts]
      | cons p tail =>
        have hmem : ∀ q ∈ p :: tail, q.function_call = none := by
          intro q hq
          apply h
          simp only [candidateParts, hcont, hparts, Option.getD_some]
          exact hq
        simp [extractFunctionCall, hcont, hparts,
              firstFunctionCallPart_of_all_none (p :: tail) hmem]

theorem mem_responseParts_of_first (response : GenerateContentResponse)
    (cand : Candidate) (rest : List Candidate) (q : Part)
    (hcand : response.candidates = some (cand :: rest))
    (hq : q ∈ candidateParts cand) :
    q ∈ responseParts response := by
  unfold responseParts
  rw [hcand]
  simp only [Option.getD_some, List.map_cons, List.flatten_cons]
  exact List.mem_append_left _ hq

theorem extractFunctionCall_of_no_tool_calls (response : GenerateContentResponse)
    (h : ∀ p ∈ responseParts response, p.function_call = none) :
    extractFunctionCall response = none := by
  cases hcand : response.candidates with
  | none => simp [extractFunctionCall, hcand]
  | some cs =>
    cases cs with
    | nil => simp [extractFunctionCall, hcand]
    | cons cand rest =>
      cases hcont : cand.content with
      | none => simp [extractFunctionCall, hcand, hcont]
      | some ct =>
        cases hparts : ct.parts with
        | none => simp [extractFunctionCall, hcand, hcont, hparts]
        | some ps =>
          cases ps with
          | nil => simp [extractFunctionCall, hcand, hcont, hparts]
          | cons p tail =>
            have hmem : ∀ q ∈ p :: tail, q.function_call = none := by
              intro q hq
              apply h
              apply mem_responseParts_of_first response cand rest q hcand
              simp only [candidateParts, hcont, hparts, Option.getD_some]
              exact hq
            simp [extractFunctionCall, hcand, hcont, hparts,
                  firstFunctionCallPart_of_all_none (p :: tail) hmem]

/-! ## Sample inputs used by witnesses -/

/-- A startup state with a non-empty key and a successfully constructed
client. -/
def sampleEnv : ProcessEnv := { GEMINI_API_KEY := some "key", client_init_ok := true }

/-- A reply part carrying a tool call with a pixelClock argument. -/
def sampleToolPart1 : Part :=
  { function_call := some { name := "updateEdidForm", args := some [("pixelClock", Json.num 148500)] } }

/-- A second reply part carrying a tool call with a different argument. -/
def sampleToolPart2 : Part :=
  { function_call := some { name := "updateEdidForm", args := some [("pixelClock", Json.num 74250)] } }

/-- A reply whose single candidate holds two tool-call parts. -/
def sampleTwoToolReply : GenerateContentResponse :=
  { text := some "Done"
    candidates := some [{ content := some { parts := some [sampleToolPart1, sampleToolPart2] } }] }

/-- A reply with no text and a single plain (non-tool-call) part. -/
def sampleTextOnlyReply : GenerateContentResponse :=
  { text := none
    candidates := some [{ content := some { parts := some [{ function_call := none }] } }] }

/-- A candidate holding one tool-call part. -/
def sampleFcCandidate : Candidate :=
  { content := some { parts := some [{ function_call := some { name := "updateEdidForm", args := none } }] } }

/-- A reply whose tool call carries a name other than the declared tool. -/
def sampleOtherNameReply : GenerateContentResponse :=
  { text := none
    candidates := some
      [{ content := some { parts := some [{ function_call := some { name := "notARealTool", args := none } }] } }] }

/-! ## Claims -/

/-- Claim C1: for any two analyze requests with the same `message` field,
whatever their `history` contents and lengths, the outbound calls issued by
the handler are identical — the prior history is not included in the
outbound call, only the latest message is sent. -/
theorem c1_outbound_ignores_history (env : ProcessEnv)
    (generate_content : OutboundCall → Except String GenerateContentResponse)
    (r1 r2 : GeminiRequest) (h : r1.message = r2.message) :
    (analyze_with_gemini env generate_content r1).2
      = (analyze_with_gemini env generate_content r2).2 := by
  have hb := buildOutboundCall_congr r1 r2 h
  cases hu : gemini_unconfigured env with
  | true =>
    rw [analyze_of_unconfigured env generate_content r1 hu,
        analyze_of_unconfigured env generate_content r2 hu]
  | false =>
    rw [analyze_calls_of_configured env generate_content r1 hu,
        analyze_calls_of_configured env generate_content r2 hu, hb]

/-- Claim C1 witness: two requests with equal message but different history
produce the same outbound calls. -/
theorem c1_outbound_ignores_history_witness :
    ({ history := [{ role := "user", text := "hello" }], message := "hi" } : GeminiRequest).message
      = ({ history := [], message := "hi" } : GeminiRequest).message
    ∧ (analyze_with_gemini sampleEnv (fun _ => .error "boom")
         { history := [{ role := "user", text := "hello" }], message := "hi" }).2
      = (analyze_with_gemini sampleEnv (fun _ => .error "boom")
         { history := [], message := "hi" }).2 :=
  ⟨rfl, c1_outbound_ignores_history sampleEnv (fun _ => .error "boom")
    { history := [{ role := "user", text := "hello" }], message := "hi" }
    { history := [], message := "hi" } rfl⟩

/-- Claim C2: when the AI reply's first candidate holds one or more
tool-call parts, the response's functionCall is populated from the first
such part only (its name and argument mapping, defaulting to an empty
mapping when the AI supplied no arguments); all subsequent tool-call parts
(here the arbitrary `post`) are discarded. -/
theorem c2_first_tool_call_surfaced (env : ProcessEnv)
    (generate_content : OutboundCall → Except String GenerateContentResponse)
    (request : GeminiRequest) (response : GenerateContentResponse)
    (cand : Candidate) (rest : List Candidate) (ct : Content)
    (pre post : List Part) (p : Part) (fc : SdkFunctionCall)
    (hc : gemini_unconfigured env = false)
    (hr : generate_content (buildOutboundCall request) = .ok response)
    (hcand : response.candidates = some (cand :: rest))
    (hcont : cand.content = some ct)
    (hparts : ct.parts = some (pre ++ p :: post))
    (hpre : ∀ q ∈ pre, q.function_call = none)
    (hp : p.function_call = some fc) :
    (analyze_with_gemini env generate_content request).1
      = .ok { text := responseTextDefault response.text
              functionCall := some (mkFunctionCall fc) }
    ∧ (fc.args = none → mkFunctionCall fc = { name := fc.name, args := [] }) := by
  constructor
  · have hfirst := firstFunctionCallPart_of_prefix_none pre post p fc hpre hp
    have hext := extractFunctionCall_of_first response cand rest ct (pre ++ p :: post) fc
      hcand hcont hparts hfirst
    rw [analyze_of_ok env generate_content request response hc hr, hext]
  · intro hargs
    simp [mkFunctionCall, hargs]

/-- Claim C2 witness: a reply with two tool-call parts surfaces only the
first part's name and arguments. -/
theorem c2_first_tool_call_surfaced_witness :
    (analyze_with_gemini sampleEnv (fun _ => .ok sampleTwoToolReply)
       { history := [], message := "Set pixel clock to 148500 kHz" }).1
      = .ok { text := "Done"
              functionCall := some { name := "updateEdidForm"
                                     args := [("pixelClock", Json.num 148500)] } } := by
  have h := c2_first_tool_call_surfaced sampleEnv (fun _ => .ok sampleTwoToolReply)
    { history := [], message := "Set pixel clock to 148500 kHz" }
    sampleTwoToolReply
    { content := some { parts := some [sampleToolPart1, sampleToolPart2] } } []
    { parts := some [sampleToolPart1, sampleToolPart2] }
    [] [sampleToolPart2] sampleToolPart1
    { name := "updateEdidForm", args := some [("pixelClock", Json.num 148500)] }
    rfl rfl rfl rfl rfl (by simp) rfl
  exact h.1

/-- Claim C3: when no credential is configured or the client failed to
construct, the analyze handler returns a 500 whose detail indicates missing
configuration, and issues no outbound call at all. -/
theorem c3_unconfigured_errors (env : ProcessEnv)
    (generate_content : OutboundCall → Except String GenerateContentResponse)
    (request : GeminiRequest) (h : gemini_unconfigured env = true) :
    analyze_with_gemini env generate_content request
      = (.httpError 500 notConfiguredDetail, []) :=
  analyze_of_unconfigured env generate_content request h

/-- Claim C3 witness: with the key absent, analyze returns the
misconfiguration 500 and the outbound-call list is empty. -/
theorem c3_unconfigured_errors_witness :
    gemini_unconfigured { GEMINI_API_KEY := none, client_init_ok := false } = true
    ∧ analyze_with_gemini { GEMINI_API_KEY := none, client_init_ok := false }
        (fun _ => .error "never called") { history := [], message := "hi" }
      = (.httpError 500 notConfiguredDetail, []) :=
  ⟨rfl, c3_unconfigured_errors { GEMINI_API_KEY := none, client_init_ok := false }
    (fun _ => .error "never called") { history := [], message := "hi" } rfl⟩

/-- Claim C4: any exception from the external call is caught at the single
boundary and surfaced as a generic 500 whose detail carries the stringified
failure reason; exactly one outbound call was made (no retry), and the
result type carries no structured error code beyond status and detail. -/
theorem c4_upstream_failure_generic_500 (env : ProcessEnv)
    (generate_content : OutboundCall → Except String GenerateContentResponse)
    (request : GeminiRequest) (e : String)
    (hc : gemini_unconfigured env = false)
    (he : generate_content (buildOutboundCall request) = .error e) :
    analyze_with_gemini env generate_content request
      = (.httpError 500 ("Failed to process request with Gemini AI: " ++ e),
         [buildOutboundCall request])
    ∧ (analyze_with_gemini env generate_content request).2.length = 1 := by
  have h := analyze_of_error env generate_content request e hc he
  exact ⟨h, by rw [h]; rfl⟩

/-- Claim C4 witness: a quota-style exception becomes a 500 carrying the
stringified reason, after exactly one outbound call. -/
theorem c4_upstream_failure_generic_500_witness :
    gemini_unconfigured sampleEnv = false
    ∧ analyze_with_gemini sampleEnv (fun _ => .error "quota exceeded")
        { history := [], message := "hi" }
      = (.httpError 500 ("Failed to process request with Gemini AI: " ++ "quota exceeded"),
         [buildOutboundCall { history := [], message := "hi" }]) :=
  ⟨rfl, (c4_upstream_failure_generic_500 sampleEnv (fun _ => .error "quota exceeded")
    { history := [], message := "hi" } "quota exceeded" rfl rfl).1⟩

/-- Claim C5 counterexample: with GEMINI_API_KEY set to the empty string,
/health reports gemini_configured as true although the credential
environment value is not non-empty, refuting the claimed iff. -/
theorem c5_configured_counterexample :
    (health_check { GEMINI_API_KEY := some "", client_init_ok := false }).2.gemini_configured = true
    ∧ ¬ (∃ s, ({ GEMINI_API_KEY := some "", client_init_ok := false } : ProcessEnv).GEMINI_API_KEY
          = some s ∧ s ≠ "") := by
  refine ⟨rfl, ?_⟩
  rintro ⟨s, hs, hne⟩
  exact hne (Option.some.inj hs).symm

/-- Claim C5 (amended): /health always returns 200, and gemini_configured
is true iff the credential environment variable was present at startup —
even when it was set to the empty string. -/
theorem c5_health_ok_and_configured_iff_present (env : ProcessEnv) :
    (health_check env).1 = 200
    ∧ ((health_check env).2.gemini_configured = true ↔ env.GEMINI_API_KEY ≠ none) := by
  refine ⟨rfl, ?_⟩
  simp [health_check, Option.isSome_iff_ne_none]

/-- Claim C6: with a configured credential, every analyze request issues
exactly one outbound call — never zero, never more than one — whatever the
external call's outcome (no retry). -/
theorem c6_exactly_one_outbound_call (env : ProcessEnv)
    (generate_content : OutboundCall → Except String GenerateContentResponse)
    (request : GeminiRequest) (hc : gemini_unconfigured env = false) :
    (analyze_with_gemini env generate_content request).2 = [buildOutboundCall request]
    ∧ (analyze_with_gemini env generate_content request).2.length = 1 := by
  have h := analyze_calls_of_configured env generate_content request hc
  exact ⟨h, by rw [h]; rfl⟩

/-- Claim C6 witness: a successful round trip issues exactly one outbound
call. -/
theorem c6_exactly_one_outbound_call_witness :
    gemini_unconfigured sampleEnv = false
    ∧ (analyze_with_gemini sampleEnv (fun _ => .ok sampleTextOnlyReply)
        { history := [], message := "hi" }).2
      = [buildOutboundCall { history := [], message := "hi" }] :=
  ⟨rfl, (c6_exactly_one_outbound_call sampleEnv (fun _ => .ok sampleTextOnlyReply)
    { history := [], message := "hi" } rfl).1⟩

/-- Claim C7: when the AI reply contains zero tool-call parts, the
response's functionCall is none and its text is the AI's textual reply,
defaulting to the empty string when the AI returned no text. -/
theorem c7_no_tool_call_null_and_text_default (env : ProcessEnv)
    (generate_content : OutboundCall → Except String GenerateContentResponse)
    (request : GeminiRequest) (response : GenerateContentResponse)
    (hc : gemini_unconfigured env = false)
    (hr : generate_content (buildOutboundCall request) = .ok response)
    (hno : ∀ p ∈ responseParts response, p.function_call = none) :
    (analyze_with_gemini env generate_content request).1
      = .ok { text := response.text.getD "", functionCall := none }
    ∧ (response.text = none →
        (analyze_with_gemini env generate_content request).1
          = .ok { text := "", functionCall := none }) := by
  have hext := extractFunctionCall_of_no_tool_calls response hno
  have hmain : (analyze_with_gemini env generate_content request).1
      = .ok { text := response.text.getD "", functionCall := none } := by
    rw [analyze_of_ok env generate_content request response hc hr, hext,
        responseTextDefault_eq_getD]
  refine ⟨hmain, fun hn => ?_⟩
  rw [hmain, hn]
  rfl

/-- Claim C7 witness: a reply with one plain part and no text yields the
empty text and no function call. -/
theorem c7_no_tool_call_null_and_text_default_witness :
    (analyze_with_gemini sampleEnv (fun _ => .ok sampleTextOnlyReply)
       { history := [], message := "hi" }).1
      = .ok { text := "", functionCall := none } := by
  have h := c7_no_tool_call_null_and_text_default sampleEnv
    (fun _ => .ok sampleTextOnlyReply) { history := [], message := "hi" }
    sampleTextOnlyReply rfl rfl
    (by
      intro p hp
      simp [responseParts, candidateParts, sampleTextOnlyReply] at hp
      subst hp
      rfl)
  exact h.2 rfl

/-- Claim C8: the extraction inspects only the first candidate — when the
first candidate has no tool-call part, the result is none whatever the
remaining candidates contain. -/
theorem c8_only_first_candidate_inspected (t : Option String) (c0 : Candidate)
    (rest : List Candidate)
    (h : ∀ p ∈ candidateParts c0, p.function_call = none) :
    extractFunctionCall { text := t, candidates := some (c0 :: rest) } = none :=
  extractFunctionCall_first_candidate_none t c0 rest h

/-- Claim C8 witness: the second candidate holds a tool call, yet the
extraction returns none because the first candidate has none. -/
theorem c8_only_first_candidate_inspected_witness :
    extractFunctionCall
      { text := some "hi"
        candidates := some
          [{ content := some { parts := some [{ function_call := none }] } },
           sampleFcCandidate] } = none
    ∧ (firstFunctionCallPart (candidateParts sampleFcCandidate)).isSome = true := by
  refine ⟨?_, rfl⟩
  exact c8_only_first_candidate_inspected (some "hi")
    { content := some { parts := some [{ function_call := none }] } }
    [sampleFcCandidate]
    (by
      intro p hp
      simp [candidateParts] at hp
      subst hp
      rfl)

/-- Claim C9: the surfaced function-call name is relayed verbatim from the
AI reply with no validation against the sole declared tool
`updateEdidForm`: for any name the reply carries, the response carries that
name unchanged. -/
theorem c9_function_call_name_verbatim (env : ProcessEnv)
    (generate_content : OutboundCall → Except String GenerateContentResponse)
    (request : GeminiRequest) (response : GenerateContentResponse)
    (ps : List Part) (rest : List Candidate) (fc : SdkFunctionCall)
    (hc : gemini_unconfigured env = false)
    (hr : generate_content (buildOutboundCall request) = .ok response)
    (hcand : response.candidates
      = some ({ content := some { parts := some ps } } :: rest))
    (hfirst : firstFunctionCallPart ps = some fc) :
    (analyze_with_gemini env generate_content request).1
      = .ok { text := responseTextDefault response.text
              functionCall := some (mkFunctionCall fc) }
    ∧ (mkFunctionCall fc).name = fc.name
    ∧ (buildOutboundCall request).config.tools
      = [{ function_declarations := [update_edid_form] }]
    ∧ update_edid_form.name = "updateEdidForm" := by
  have hext := extractFunctionCall_of_first response
    { content := some { parts := some ps } } rest { parts := some ps } ps fc
    hcand rfl rfl hfirst
  refine ⟨?_, rfl, rfl, rfl⟩
  rw [analyze_of_ok env generate_content request response hc hr, hext]

/-- Claim C9 witness: a reply naming a tool other than updateEdidForm is
relayed with that name unchanged. -/
theorem c9_function_call_name_verbatim_witness :
    (analyze_with_gemini sampleEnv (fun _ => .ok sampleOtherNameReply)
       { history := [], message := "hi" }).1
      = .ok { text := "", functionCall := some { name := "notARealTool", args := [] } }
    ∧ "notARealTool" ≠ "updateEdidForm" := by
  have h := c9_function_call_name_verbatim sampleEnv (fun _ => .ok sampleOtherNameReply)
    { history := [], message := "hi" } sampleOtherNameReply
    [{ function_call := some { name := "notARealTool", args := none } }] []
    { name := "notARealTool", args := none }
    rfl rfl rfl rfl
  exact ⟨h.1, by decide⟩

/-- Claim C10: when the key environment value is truthy but the client
failed to construct at startup, /health reports gemini_configured true
while every analyze call fails with the not-configured 500 — the two
endpoints disagree about whether the service is usable. -/
theorem c10_health_and_analyze_disagree (env : ProcessEnv)
    (generate_content : OutboundCall → Except String GenerateContentResponse)
    (request : GeminiRequest)
    (hk : pyStrTruthy env.GEMINI_API_KEY = true)
    (hinit : env.client_init_ok = false) :
    (health_check env).2.gemini_configured = true
    ∧ analyze_with_gemini env generate_content request
      = (.httpError 500 notConfiguredDetail, []) := by
  have hsome : env.GEMINI_API_KEY.isSome = true := by
    cases hK : env.GEMINI_API_KEY with
    | none => rw [hK] at hk; simp [pyStrTruthy] at hk
    | some s => rfl
  have hu : gemini_unconfigured env = true := by
    simp [gemini_unconfigured, client, hk, hinit]
  exact ⟨hsome, analyze_of_unconfigured env generate_content request hu⟩

/-- Claim C10 witness: key present, client construction failed — health
says configured, analyze says not configured. -/
theorem c10_health_and_analyze_disagree_witness :
    pyStrTruthy (some "key") = true
    ∧ (health_check { GEMINI_API_KEY := some "key", client_init_ok := false }).2.gemini_configured = true
    ∧ analyze_with_gemini { GEMINI_API_KEY := some "key", client_init_ok := false }
        (fun _ => .error "never called") { history := [], message := "hi" }
      = (.httpError 500 notConfiguredDetail, []) := by
  have h := c10_health_and_analyze_disagree
    { GEMINI_API_KEY := some "key", client_init_ok := false }
    (fun _ => .error "never called") { history := [], message := "hi" } rfl rfl
  exact ⟨rfl, h.1, h.2⟩

end EDIDBackend
